import Mathlib

/-! Verification of the product-list screen in src/app/(tabs)/index.tsx.

The screen is a React component holding three pieces of state (lines 9-11):
a product list, a loading flag and an optional error message. `fetchProducts`
(lines 15-28) sets the loading flag, clears the error, and on resolution of
the asynchronous fetch either stores the fetched list (success) or stores a
fixed error message while logging the raw error (failure); either way the
loading flag is cleared. `handleSearch` (lines 35-40) filters the current
product list by a case-insensitive substring match on the product name and
stores the filtered list back into the same state slot. The render branching
(lines 59-110) decides which view is shown: the skeleton loader while
loading, the error panel when the error string is truthy, the empty message
when the product list is empty, and otherwise the product grid.

The embedding below models the state record, both halves of the fetch
lifecycle (the synchronous prologue before the await, and the application of
a fetch resolution), the search handler, and the render branching as a
function from the state to a view-state variant. -/

/-- One catalog item as the screen consumes it: the fields read at lines
46-54 of the source (id, name, price, description). -/
structure Product where
  id : Nat
  name : String
  price : Nat
  description : String
deriving DecidableEq

/-- The component state: the three useState hooks of lines 9-11
(products, loading, error). -/
structure ScreenState where
  products : List Product
  loading : Bool
  error : Option String
deriving DecidableEq

/-- The initial hook values of lines 9-11: empty list, not loading, no
error message. -/
def initialState : ScreenState :=
  { products := [], loading := false, error := none }

/-- Whether a list of characters starts with the given pattern. -/
def charsStartWith : List Char → List Char → Bool
  | [], _ => true
  | _ :: _, [] => false
  | a :: as, b :: bs => a == b && charsStartWith as bs

/-- Whether the pattern occurs contiguously somewhere in the list: the
semantics of the JavaScript String.includes call at line 37. -/
def charsContain (pattern : List Char) : List Char → Bool
  | [] => charsStartWith pattern []
  | c :: rest => charsStartWith pattern (c :: rest) || charsContain pattern rest

/-- The characters of a string lowered one by one: the JavaScript
toLowerCase calls at line 37 (the sources involved are ASCII). -/
def lowerChars (s : String) : List Char :=
  s.data.map Char.toLower

/-- The filter predicate of lines 36-38: the lowered product name contains
the lowered query as a substring. -/
def nameMatches (query : String) (product : Product) : Bool :=
  charsContain (lowerChars query) (lowerChars product.name)

/-- handleSearch (lines 35-40): filters the current products by
`nameMatches` and stores the filtered list back with setProducts, replacing
the previous list. -/
def handleSearch (query : String) (s : ScreenState) : ScreenState :=
  { s with products := s.products.filter (nameMatches query) }

/-- The synchronous prologue of fetchProducts (lines 16-17): setLoading(true)
and setError(null) before the fetch is awaited. -/
def fetchStart (s : ScreenState) : ScreenState :=
  { s with loading := true, error := none }

/-- The resolution of one getProducts() call: either the fetched list or a
raised error carrying its raw detail. -/
inductive FetchResult where
  | ok (fetched : List Product)
  | failed (detail : String)
deriving DecidableEq

/-- The fixed user-facing message stored by setError at line 23. -/
def errorMessage : String := "Failed to fetch products"

/-- The continuation of fetchProducts after the awaited fetch resolves
(lines 18-27): on success setProducts stores the fetched list; on failure
setError stores the fixed `errorMessage`; the finally block clears the
loading flag in both cases. The raw error detail never reaches the state. -/
def applyFetchResult (r : FetchResult) (s : ScreenState) : ScreenState :=
  match r with
  | FetchResult.ok fetched => { s with products := fetched, loading := false }
  | FetchResult.failed _ => { s with error := some errorMessage, loading := false }

/-- The console line emitted on the failure path (line 24): the raw error
detail goes only to this observability output, never into the state. -/
def fetchFailureLog (detail : String) : String :=
  "Error fetching products: " ++ detail

/-- What the screen renders: one variant per top-level branch of the
component body. -/
inductive ViewState where
  | loading
  | error (message : String)
  | empty
  | loaded (visible : List Product)
deriving DecidableEq

/-- JavaScript truthiness of the error field (a string or null, line 76):
truthy exactly when it is a non-null, non-empty string. -/
def errorTruthy : Option String → Bool
  | none => false
  | some m => m != ""

/-- The render branching of lines 59-110, in source order: the loading
check first, then the error check, then the empty-list check, and otherwise
the grid fed with the current products. -/
def viewOf (s : ScreenState) : ViewState :=
  if s.loading then ViewState.loading
  else if errorTruthy s.error then ViewState.error (s.error.getD "")
  else if s.products.isEmpty then ViewState.empty
  else ViewState.loaded s.products

/-- The constructor tag of a view, used to state tag-level properties. -/
inductive ViewTag where
  | loading
  | error
  | empty
  | loaded
deriving DecidableEq

/-- The tag of a view-state value. -/
def ViewState.tag : ViewState → ViewTag
  | ViewState.loading => ViewTag.loading
  | ViewState.error _ => ViewTag.error
  | ViewState.empty => ViewTag.empty
  | ViewState.loaded _ => ViewTag.loaded

/-- The first example product of the specification. -/
def chair : Product :=
  { id := 1, name := "Chair", price := 50, description := "x" }

/-- The second example product of the specification. -/
def tableP : Product :=
  { id := 2, name := "Table", price := 120, description := "y" }

/-- The state after a successful fetch of the two example products from the
initial state. -/
def loadedCT : ScreenState :=
  applyFetchResult (FetchResult.ok [chair, tableP]) (fetchStart initialState)

/-- The state after two fetchProducts calls have both run their synchronous
prologue and neither fetch has resolved yet. -/
def doubleStart : ScreenState :=
  fetchStart (fetchStart initialState)

/-- Filtering twice with one predicate equals filtering once. -/
theorem filter_same_twice {α : Type} (p : α → Bool) (l : List α) :
    (l.filter p).filter p = l.filter p := by
  induction l with
  | nil => rfl
  | cons a t ih =>
      by_cases hpa : p a = true
      · simp [List.filter_cons, hpa, ih]
      · simp [List.filter_cons, hpa, ih]

/-- Claim C1: the claim states that search leaves the authoritative product
set unchanged and only derives a visible set. The code violates it: from the
Loaded state produced by fetching the two example products, handleSearch
with the query cha stores the filtered list back into the single products
slot, so the set written by the last successful fetch is replaced and lost.
This theorem evaluates the code at that failing input. -/
theorem c1_search_replaces_fetched_set :
    loadedCT.products = [chair, tableP] ∧
      (handleSearch "cha" loadedCT).products = [chair] ∧
      (handleSearch "cha" loadedCT).products ≠ loadedCT.products := by
  decide

/-- Claim C2: the claim states that search always filters the set written by
the last successful fetch, with the empty query yielding that full set. The
code filters the current, possibly already filtered, list instead: after
fetching the two example products and searching cha, a subsequent empty
search returns only the chair, not the full fetched set. This theorem
evaluates the code at that failing input. -/
theorem c2_empty_search_does_not_restore :
    (handleSearch "" (handleSearch "cha" loadedCT)).products = [chair] ∧
      (handleSearch "" (handleSearch "cha" loadedCT)).products ≠ [chair, tableP] := by
  decide

/-- Claim C3: a successful fetch of a non-empty product list, applied to the
fetch prologue from any prior state, renders the loaded grid fed with
exactly the fetched list, and the stored product list is that fetched list
(so the authoritative and visible data coincide when no search is active). -/
theorem c3_fetch_success_nonempty (s : ScreenState) (l : List Product)
    (h : l ≠ []) :
    viewOf (applyFetchResult (FetchResult.ok l) (fetchStart s)) =
        ViewState.loaded l ∧
      (applyFetchResult (FetchResult.ok l) (fetchStart s)).products = l := by
  match l, h with
  | a :: as, _ => exact ⟨rfl, rfl⟩

/-- Witness for C3 at the two example products of the specification. -/
theorem c3_fetch_success_nonempty_witness :
    viewOf (applyFetchResult (FetchResult.ok [chair, tableP])
        (fetchStart initialState)) = ViewState.loaded [chair, tableP] ∧
      (applyFetchResult (FetchResult.ok [chair, tableP])
        (fetchStart initialState)).products = [chair, tableP] :=
  c3_fetch_success_nonempty initialState [chair, tableP]
    (List.cons_ne_nil chair [tableP])

/-- Claim C4: a successful fetch of zero products, applied to the fetch
prologue from any prior state, renders the empty view, and that view is a
variant distinct from the loading, error and loaded views. -/
theorem c4_fetch_success_empty (s : ScreenState) :
    viewOf (applyFetchResult (FetchResult.ok []) (fetchStart s)) =
        ViewState.empty ∧
      ViewState.empty ≠ ViewState.loading ∧
      (∀ m, ViewState.empty ≠ ViewState.error m) ∧
      (∀ l, ViewState.empty ≠ ViewState.loaded l) :=
  ⟨rfl, fun h => ViewState.noConfusion h, fun _ h => ViewState.noConfusion h,
    fun _ h => ViewState.noConfusion h⟩

/-- Claim C5: a failed fetch, whatever its raw detail, renders the error
view carrying the fixed non-empty message; the resulting state does not
depend on the raw detail (so no raw error detail reaches the presentation
layer), and the raw detail appears only in the console log line. -/
theorem c5_fetch_failure_stable_message (s : ScreenState) (detail : String) :
    viewOf (applyFetchResult (FetchResult.failed detail) (fetchStart s)) =
        ViewState.error errorMessage ∧
      errorMessage ≠ "" ∧
      (∀ d1 d2, applyFetchResult (FetchResult.failed d1) (fetchStart s) =
        applyFetchResult (FetchResult.failed d2) (fetchStart s)) ∧
      fetchFailureLog detail = "Error fetching products: " ++ detail :=
  ⟨rfl, by decide, fun d1 d2 => rfl, rfl⟩

/-- Claim C6: searching while the rendered view is not the loaded grid
leaves the view tag unchanged and in particular never fabricates a loaded
view; the search handler is total, so it cannot throw. -/
theorem c6_search_noop_outside_loaded (s : ScreenState) (q : String)
    (h : (viewOf s).tag ≠ ViewTag.loaded) :
    (viewOf (handleSearch q s)).tag = (viewOf s).tag ∧
      (viewOf (handleSearch q s)).tag ≠ ViewTag.loaded := by
  have hmain : (viewOf (handleSearch q s)).tag = (viewOf s).tag := by
    by_cases hl : s.loading
    · simp [viewOf, handleSearch, hl]
    · by_cases he : errorTruthy s.error = true
      · simp [viewOf, handleSearch, hl, he, ViewState.tag]
      · by_cases hp : s.products.isEmpty
        · have hnil : s.products = [] := by simpa using hp
          simp [viewOf, handleSearch, hl, he, hnil, ViewState.tag]
        · exact absurd (by simp [viewOf, hl, he, hp, ViewState.tag]) h
  exact ⟨hmain, hmain ▸ h⟩

/-- Witness for C6 from the empty view of the initial state. -/
theorem c6_search_noop_outside_loaded_witness :
    (viewOf (handleSearch "anything" initialState)).tag =
        (viewOf initialState).tag ∧
      (viewOf (handleSearch "anything" initialState)).tag ≠ ViewTag.loaded :=
  c6_search_noop_outside_loaded initialState "anything" (by decide)

/-- Claim C7: the synchronous prologue of every fetchProducts call, from any
state, renders the loading view and clears any prior error message. -/
theorem c7_refresh_sets_loading_clears_error (s : ScreenState) :
    viewOf (fetchStart s) = ViewState.loading ∧ (fetchStart s).error = none :=
  ⟨rfl, rfl⟩

/-- Claim C8: from a state whose rendered view is the loaded grid, searching
twice with one query yields exactly the state of searching once: the search
handler is idempotent. -/
theorem c8_search_idempotent (s : ScreenState) (q : String)
    (h : (viewOf s).tag = ViewTag.loaded) :
    handleSearch q (handleSearch q s) = handleSearch q s := by
  simp [handleSearch, filter_same_twice]

/-- Witness for C8 at the example loaded state and the query cha. -/
theorem c8_search_idempotent_witness :
    handleSearch "cha" (handleSearch "cha" loadedCT) =
      handleSearch "cha" loadedCT :=
  c8_search_idempotent loadedCT "cha" (by decide)

/-- Claim C9 counterexample: two runs of the double-refresh scenario share
the same last-arriving resolution (a successful fetch of the chair) yet end
in different states, so the final state is not determined by whichever
resolution arrives last. When the earlier arrival is a failure, the stored
error survives the later success (success never clears the error, which is
cleared only in the fetch prologue), and the final rendered view is the
error panel even though the last resolution succeeded with a product. -/
theorem c9_mixed_resolutions_counterexample :
    applyFetchResult (FetchResult.ok [chair])
        (applyFetchResult (FetchResult.failed "timeout") doubleStart) ≠
      applyFetchResult (FetchResult.ok [chair])
        (applyFetchResult (FetchResult.ok [tableP]) doubleStart) ∧
      viewOf (applyFetchResult (FetchResult.ok [chair])
        (applyFetchResult (FetchResult.failed "timeout") doubleStart)) =
        ViewState.error errorMessage := by
  decide

/-- Claim C9 as amended: in the double-refresh scenario each resolution
overwrites only the fields it sets. When both fetches succeed the final
state is exactly that of the resolution arriving last, regardless of which
call issued it, so a stale first-issued fetch resolving after the second
overwrites the second fetch result; when a failure arrives before a final
success, the success installs its products but the stored error message
survives. -/
theorem c9_last_arrival_overwrites (s : ScreenState)
    (early late : List Product) :
    applyFetchResult (FetchResult.ok late)
        (applyFetchResult (FetchResult.ok early) (fetchStart (fetchStart s))) =
      applyFetchResult (FetchResult.ok late) (fetchStart (fetchStart s)) ∧
      (∀ d, (applyFetchResult (FetchResult.ok late)
          (applyFetchResult (FetchResult.failed d)
            (fetchStart (fetchStart s)))).products = late ∧
        (applyFetchResult (FetchResult.ok late)
          (applyFetchResult (FetchResult.failed d)
            (fetchStart (fetchStart s)))).error = some errorMessage) :=
  ⟨rfl, fun _ => ⟨rfl, rfl⟩⟩

/-- Claim C10: a fetch that fails leaves the stored product list exactly as
it was before the fetch began; the whole transition changes only the loading
flag and the error message. -/
theorem c10_failed_fetch_preserves_products (s : ScreenState)
    (detail : String) :
    (applyFetchResult (FetchResult.failed detail) (fetchStart s)).products =
        s.products ∧
      applyFetchResult (FetchResult.failed detail) (fetchStart s) =
        { s with loading := false, error := some errorMessage } :=
  ⟨rfl, rfl⟩
